import Mathlib

/-!
Shallow embedding of src/static/js/main.js (inspirational-quotes-generator,
client-side request-lifecycle controller) and proofs about its spec claims.

The DOM is modelled as an explicit record of the element attributes the
script writes (button disabled flag, div display flags, error-details text,
result image source, result caption).  JS `undefined`-able string arguments
are modelled as `Option String` (`none` = absent/undefined), so a JS default
parameter fires exactly when the argument is `none`.  JS string truthiness
(`if (background)`) is `isTruthy`.  The outcome of the single `fetch` call
is supplied as an environment `doFetch : String → FetchOutcome`.
-/

/-- DOM state touched by main.js: the submit button, the three divs
(loading / result / error), the error-details text, and the result image
and caption slots. -/
structure UIState where
  submitDisabled : Bool
  loadingVisible : Bool
  resultVisible : Bool
  errorVisible : Bool
  errorDetails : String
  resultImage : Option (List Nat)
  resultCaption : String
deriving DecidableEq, Repr

/-- JS truthiness of an optional string: `undefined` and `""` are falsy,
every other string is truthy. -/
def isTruthy : Option String → Bool
  | none => false
  | some s => !(s == "")

/-- main.js lines 1-16, `setStartLoading`: disable the submit button, show
the loading div, hide the result div, hide the error div. -/
def setStartLoading (s : UIState) : UIState :=
  { s with
    submitDisabled := true
    loadingVisible := true
    resultVisible := false
    errorVisible := false }

/-- main.js lines 18-36, `setStopLoading(isError, errorMsg = "Unknown error 😢")`:
enable the submit button, hide the loading div, show the error div iff
`isError`, always overwrite the error-details text with `errorMsg` (the JS
default fires when the argument is absent/undefined, i.e. `none`), and show
the result div iff not `isError`. -/
def setStopLoading (isError : Bool) (errorMsg : Option String) (s : UIState) : UIState :=
  { s with
    submitDisabled := false
    loadingVisible := false
    errorVisible := isError
    errorDetails := errorMsg.getD "Unknown error 😢"
    resultVisible := !isError }

/-- main.js lines 78-85 parse these two JSON headers; they are modelled as
the already-parsed records (claims only exercise well-formed headers).
`x-image-credits` payload. -/
structure Credits where
  url : String
  first_name : String
  last_name : String
deriving DecidableEq, Repr

/-- `x-generation-parameters` payload. -/
structure GenInfo where
  text_model : String
deriving DecidableEq, Repr

/-- Result of `response.json()` on the non-success path: either the promise
rejected (body not JSON), or it parsed and the `error` field is the given
optional string (`none` = field absent, i.e. `json.error === undefined`). -/
inductive JsonErrorBody where
  | parseFailed
  | parsed (error : Option String)
deriving DecidableEq, Repr

/-- Result of `response.blob()` on the success path: the promise either
resolves with the body bytes or rejects (e.g. the body stream fails).  In
main.js lines 72-90 that inner promise chain is never returned to the
outer chain, so a rejection has no handler anywhere. -/
inductive BlobResult where
  | readFailed
  | read (blob : List Nat)
deriving DecidableEq, Repr

/-- Outcome of the `fetch(url)` call in main.js lines 69-104: the promise
rejected (transport failure), or a response arrived with `response.ok`
false (carrying the error-body parse result), or with `response.ok` true
(carrying the result of reading the body blob together with the two
metadata headers, parsed on demand). -/
inductive FetchOutcome where
  | transportFailure
  | httpError (body : JsonErrorBody)
  | httpOk (body : BlobResult) (credits : Credits) (generationInfo : GenInfo)
deriving DecidableEq, Repr

/-- Observable calls into the UI state controller, recorded in order. -/
inductive UIEvent where
  | enterLoading
  | exitLoading (isError : Bool) (errorMsg : Option String)
deriving DecidableEq, Repr

/-- A DOM state together with the trace of controller calls made so far. -/
abbrev UIRun := UIState × List UIEvent

/-- `setStartLoading()` call, recorded in the trace. -/
def runStartLoading (r : UIRun) : UIRun :=
  (setStartLoading r.1, r.2 ++ [UIEvent.enterLoading])

/-- `setStopLoading(isError, errorMsg?)` call, recorded in the trace. -/
def runStopLoading (isError : Bool) (errorMsg : Option String) (r : UIRun) : UIRun :=
  (setStopLoading isError errorMsg r.1, r.2 ++ [UIEvent.exitLoading isError errorMsg])

/-- main.js lines 38-40, `onGenerateError(error)`: forwards to
`setStopLoading(true, error)`. -/
def runGenerateError (error : Option String) (r : UIRun) : UIRun :=
  runStopLoading true error r

/-- UTF-8 bytes of a character (URLSearchParams percent-encodes over UTF-8). -/
def utf8Bytes (c : Char) : List Nat :=
  let n := c.toNat
  if n < 128 then [n]
  else if n < 2048 then [192 + n / 64, 128 + n % 64]
  else if n < 65536 then [224 + n / 4096, 128 + (n / 64) % 64, 128 + n % 64]
  else [240 + n / 262144, 128 + (n / 4096) % 64, 128 + (n / 64) % 64, 128 + n % 64]

/-- Uppercase hexadecimal digit. -/
def hexUpper (n : Nat) : Char :=
  if n < 10 then Char.ofNat (48 + n) else Char.ofNat (55 + n)

/-- Bytes URLSearchParams leaves unescaped: ASCII alphanumerics and
`*`, `-`, `.`, `_`. -/
def isUnescapedByte (n : Nat) : Bool :=
  (65 ≤ n && n ≤ 90) || (97 ≤ n && n ≤ 122) || (48 ≤ n && n ≤ 57) ||
    n == 42 || n == 45 || n == 46 || n == 95

/-- application/x-www-form-urlencoded encoding of one byte: unescaped bytes
stay, space becomes `+`, everything else is `%XX`. -/
def encodeByte (n : Nat) : String :=
  if isUnescapedByte n then String.singleton (Char.ofNat n)
  else if n == 32 then "+"
  else "%" ++ String.singleton (hexUpper (n / 16)) ++ String.singleton (hexUpper (n % 16))

/-- application/x-www-form-urlencoded encoding of a string, as
URLSearchParams serializes keys and values. -/
def urlencode (s : String) : String :=
  String.join (((s.toList.map utf8Bytes).flatten).map encodeByte)

/-- main.js lines 50-59: the `queryParams` object, built by inserting each
of `background`, `text_model`, `blur` (in that order) when truthy. -/
def buildQueryParams (background text_model blur : Option String) : List (String × String) :=
  (if isTruthy background then [("background", background.getD "")] else []) ++
    (if isTruthy text_model then [("text_model", text_model.getD "")] else []) ++
    (if isTruthy blur then [("blur", blur.getD "")] else [])

/-- `new URLSearchParams(queryParams)` stringified: `k=v` pairs, each
urlencoded, joined with `&`. -/
def serializeQuery (params : List (String × String)) : String :=
  String.intercalate "&" (params.map fun p => urlencode p.1 ++ "=" ++ urlencode p.2)

/-- main.js lines 62-66: start from `"/generate/"` and append
`?<query string>` only when at least one parameter is present. -/
def buildRequestURL (background text_model blur : Option String) : String :=
  let queryParams := buildQueryParams background text_model blur
  if queryParams.length > 0 then
    "/generate/" ++ "?" ++ serializeQuery queryParams
  else
    "/generate/"

/-- main.js lines 87-89: the template literal assigned to the caption slot
(\x27 is the apostrophe of the href attribute; the literal contains real
newlines and tab indentation). -/
def buildCaption (pictureCredits : Credits) (generationInfo : GenInfo) : String :=
  "Background picture by <a href=\x27" ++ pictureCredits.url ++ "\x27>" ++
    pictureCredits.first_name ++ " " ++ pictureCredits.last_name ++
    " on Unsplash</a>.<br />\n\t\t\t\t\tGenerated with " ++
    generationInfo.text_model ++ " on Hugging Face.\n\t\t\t\t\t"

/-- main.js lines 42-105, `handleGeneration(background, text_model, blur)`:
enter loading, build the URL, fetch it, and dispatch on the outcome exactly
as the promise chain does — transport failure and JSON-parse failure both
reach `onGenerateError("Unknown error")`, a parsed error body reaches
`onGenerateError(json.error)`, and a success response whose body read
succeeds calls `setStopLoading(false)` and then fills the image and caption
slots.  When `response.blob()` rejects on a success-status response, the
callback at lines 72-90 never runs and no handler sees the rejection (the
inner promise is not returned, so the outer catch at line 102 only guards
`fetch` and the `then` callback itself): no UI call at all is made. -/
def handleGeneration (background text_model blur : Option String)
    (doFetch : String → FetchOutcome) (r : UIRun) : UIRun :=
  let r1 := runStartLoading r
  let url := buildRequestURL background text_model blur
  match doFetch url with
  | FetchOutcome.transportFailure =>
      runGenerateError (some "Unknown error") r1
  | FetchOutcome.httpError JsonErrorBody.parseFailed =>
      runGenerateError (some "Unknown error") r1
  | FetchOutcome.httpError (JsonErrorBody.parsed errField) =>
      runGenerateError errField r1
  | FetchOutcome.httpOk BlobResult.readFailed _ _ =>
      r1
  | FetchOutcome.httpOk (BlobResult.read blob) credits genInfo =>
      let r2 := runStopLoading false none r1
      ({ r2.1 with
          resultImage := some blob
          resultCaption := buildCaption credits genInfo }, r2.2)

/-- An arbitrary concrete starting DOM state for closed evaluations. -/
def initialState : UIState :=
  ⟨false, false, false, false, "", none, ""⟩

/-- C5: `buildRequestURL` with all three parameters absent returns exactly
`"/generate/"`, with no trailing `?`. -/
theorem buildRequestURL_all_absent : buildRequestURL none none none = "/generate/" := by
  rfl

/-- C6: after every `setStopLoading` call, whatever the arguments, the
loading div is hidden, the submit button is enabled, the error div is shown
iff `isError`, the result div is shown iff not `isError` — so exactly one
of the two is visible. -/
theorem setStopLoading_exclusive_regions (isError : Bool) (errorMsg : Option String)
    (s : UIState) :
    ((setStopLoading isError errorMsg s).loadingVisible = false) ∧
    ((setStopLoading isError errorMsg s).submitDisabled = false) ∧
    ((setStopLoading isError errorMsg s).errorVisible = isError) ∧
    ((setStopLoading isError errorMsg s).resultVisible = !isError) ∧
    ((setStopLoading isError errorMsg s).resultVisible
        = !(setStopLoading isError errorMsg s).errorVisible) := by
  simp [setStopLoading]

/-- C7: `setStartLoading`, from any prior DOM state, leaves the submit
button disabled, the loading div shown, the result div hidden and the error
div hidden, and repeating the call leaves the state unchanged. -/
theorem setStartLoading_behavior (s : UIState) :
    ((setStartLoading s).submitDisabled = true) ∧
    ((setStartLoading s).loadingVisible = true) ∧
    ((setStartLoading s).resultVisible = false) ∧
    ((setStartLoading s).errorVisible = false) ∧
    setStartLoading (setStartLoading s) = setStartLoading s := by
  simp [setStartLoading]

/-- C8: `setStopLoading(true, "boom")` leaves the error div shown with
details text exactly `"boom"` (loading hidden, result hidden, submit
enabled), and `setStopLoading(true)` with the message absent populates the
details with the default fallback string. -/
theorem setStopLoading_message_behavior (s : UIState) :
    ((setStopLoading true (some "boom") s).loadingVisible = false) ∧
    ((setStopLoading true (some "boom") s).errorVisible = true) ∧
    ((setStopLoading true (some "boom") s).errorDetails = "boom") ∧
    ((setStopLoading true (some "boom") s).resultVisible = false) ∧
    ((setStopLoading true (some "boom") s).submitDisabled = false) ∧
    ((setStopLoading true none s).errorDetails = "Unknown error 😢") := by
  simp [setStopLoading]

/-- C10: every `setStopLoading` call overwrites the error-details text with
its message argument (default when absent), even when `isError` is false;
in particular the success path of `handleGeneration`, which calls
`setStopLoading(false)` with no message, resets the hidden error details to
`"Unknown error 😢"`. -/
theorem setStopLoading_overwrites_details (isError : Bool) (errorMsg : Option String)
    (s : UIState) (background text_model blur : Option String) (blob : List Nat)
    (credits : Credits) (genInfo : GenInfo) :
    ((setStopLoading isError errorMsg s).errorDetails = errorMsg.getD "Unknown error 😢") ∧
    ((setStopLoading false none s).errorDetails = "Unknown error 😢") ∧
    ((handleGeneration background text_model blur
        (fun _ => FetchOutcome.httpOk (BlobResult.read blob) credits genInfo)
        (s, [])).1.errorDetails
      = "Unknown error 😢") := by
  simp [setStopLoading, handleGeneration, runStopLoading, runStartLoading]

/-- C1 counterexample: on a success-status response whose body read
(`response.blob()`) fails, the rejection has no handler, so the run makes
the initial `setStartLoading` call and never any `setStopLoading` — the
trace is `[enterLoading]` alone and the DOM stays in the loading state with
the submit button disabled. -/
theorem handleGeneration_blob_failure_counterexample :
    ((handleGeneration none none none
        (fun _ => FetchOutcome.httpOk BlobResult.readFailed ⟨"http://u", "A", "B"⟩ ⟨"flux"⟩)
        (initialState, [])).2 = [UIEvent.enterLoading]) ∧
    ((handleGeneration none none none
        (fun _ => FetchOutcome.httpOk BlobResult.readFailed ⟨"http://u", "A", "B"⟩ ⟨"flux"⟩)
        (initialState, [])).1.loadingVisible = true) ∧
    ((handleGeneration none none none
        (fun _ => FetchOutcome.httpOk BlobResult.readFailed ⟨"http://u", "A", "B"⟩ ⟨"flux"⟩)
        (initialState, [])).1.submitDisabled = true) := by
  refine ⟨by decide, by decide, by decide⟩

/-- C1 amended: whenever the fetch outcome is not a success response with a
failing body read — i.e. on transport failure, non-success status, and
success with a delivered body — the trace pairs the initial `enterLoading`
with exactly one eventual `exitLoading`; but when a success-status
response's body read fails, the unhandled rejection makes no UI call, so
the trace is `[enterLoading]` alone and the system remains in the Loading
state (loading shown, submit disabled). -/
theorem handleGeneration_loading_paired (background text_model blur : Option String)
    (doFetch : String → FetchOutcome) (s : UIState) :
    ((∀ credits genInfo,
        doFetch (buildRequestURL background text_model blur)
          ≠ FetchOutcome.httpOk BlobResult.readFailed credits genInfo) →
      ∃ isError errorMsg,
        (handleGeneration background text_model blur doFetch (s, [])).2 =
          [UIEvent.enterLoading, UIEvent.exitLoading isError errorMsg]) ∧
    (∀ credits genInfo,
      doFetch (buildRequestURL background text_model blur)
          = FetchOutcome.httpOk BlobResult.readFailed credits genInfo →
      ((handleGeneration background text_model blur doFetch (s, [])).2 =
          [UIEvent.enterLoading]) ∧
      ((handleGeneration background text_model blur doFetch (s, [])).1.loadingVisible = true) ∧
      ((handleGeneration background text_model blur doFetch (s, [])).1.submitDisabled = true)) := by
  constructor
  · intro hne
    cases h : doFetch (buildRequestURL background text_model blur) with
    | transportFailure =>
        exact ⟨true, some "Unknown error",
          by simp [handleGeneration, runStartLoading, runStopLoading, runGenerateError, h]⟩
    | httpError body =>
        cases body with
        | parseFailed =>
            exact ⟨true, some "Unknown error",
              by simp [handleGeneration, runStartLoading, runStopLoading, runGenerateError, h]⟩
        | parsed errField =>
            exact ⟨true, errField,
              by simp [handleGeneration, runStartLoading, runStopLoading, runGenerateError, h]⟩
    | httpOk body credits genInfo =>
        cases body with
        | readFailed => exact absurd h (hne credits genInfo)
        | read blob =>
            exact ⟨false, none,
              by simp [handleGeneration, runStartLoading, runStopLoading, h]⟩
  · intro _credits _genInfo h
    refine ⟨?_, ?_, ?_⟩ <;>
      simp [handleGeneration, runStartLoading, setStartLoading, h]

/-- C1 witness: at the concrete transport-failure and failing-body-read
environments, both branches of the pairing theorem apply with their
hypotheses discharged. -/
theorem handleGeneration_loading_paired_witness :
    (∃ isError errorMsg,
      (handleGeneration none none none (fun _ => FetchOutcome.transportFailure)
        (initialState, [])).2 =
        [UIEvent.enterLoading, UIEvent.exitLoading isError errorMsg]) ∧
    ((handleGeneration none none none
        (fun _ => FetchOutcome.httpOk BlobResult.readFailed ⟨"http://u", "A", "B"⟩ ⟨"flux"⟩)
        (initialState, [])).2 = [UIEvent.enterLoading]) :=
  ⟨(handleGeneration_loading_paired none none none (fun _ => FetchOutcome.transportFailure)
      initialState).1 (fun credits genInfo h => FetchOutcome.noConfusion h),
   ((handleGeneration_loading_paired none none none
      (fun _ => FetchOutcome.httpOk BlobResult.readFailed ⟨"http://u", "A", "B"⟩ ⟨"flux"⟩)
      initialState).2 ⟨"http://u", "A", "B"⟩ ⟨"flux"⟩ rfl).1⟩

/-- C2 counterexample: a non-success response whose body parses as JSON
without an `error` field does not display `"Unknown error"` — the absent
field is `undefined`, so `setStopLoading`'s default parameter fires and the
details read `"Unknown error 😢"`. -/
theorem handleGeneration_absent_field_counterexample :
    ((handleGeneration none none none
        (fun _ => FetchOutcome.httpError (JsonErrorBody.parsed none))
        (initialState, [])).1.errorDetails = "Unknown error 😢") ∧
    ((handleGeneration none none none
        (fun _ => FetchOutcome.httpError (JsonErrorBody.parsed none))
        (initialState, [])).1.errorDetails ≠ "Unknown error") := by
  refine ⟨by decide, by decide⟩

/-- C2 amended: on a non-success status the error div is shown and the
details text is the server-supplied `error` string when the body parses
with one; `"Unknown error"` when body parsing fails; and the default
`"Unknown error 😢"` when the body parses but the `error` field is absent
(the `undefined` argument triggers the default parameter). -/
theorem handleGeneration_httpError_message (background text_model blur : Option String)
    (s : UIState) (body : JsonErrorBody) :
    ((handleGeneration background text_model blur (fun _ => FetchOutcome.httpError body)
        (s, [])).1.errorVisible = true) ∧
    ((handleGeneration background text_model blur (fun _ => FetchOutcome.httpError body)
        (s, [])).1.errorDetails =
      match body with
      | JsonErrorBody.parsed (some msg) => msg
      | JsonErrorBody.parseFailed => "Unknown error"
      | JsonErrorBody.parsed none => "Unknown error 😢") := by
  cases body with
  | parseFailed =>
      simp [handleGeneration, runStartLoading, runStopLoading, runGenerateError, setStopLoading]
  | parsed errField =>
      cases errField <;>
        simp [handleGeneration, runStartLoading, runStopLoading, runGenerateError, setStopLoading]

/-- C3 counterexample: on transport failure the details text is
`"Unknown error"` (the catch handler passes that literal), not the
emoji default `"Unknown error 😢"` the claim states. -/
theorem handleGeneration_transport_counterexample :
    ((handleGeneration none none none (fun _ => FetchOutcome.transportFailure)
        (initialState, [])).1.errorDetails = "Unknown error") ∧
    ((handleGeneration none none none (fun _ => FetchOutcome.transportFailure)
        (initialState, [])).1.errorDetails ≠ "Unknown error 😢") := by
  refine ⟨by decide, by decide⟩

/-- C3 amended: on transport-level failure `setStopLoading(true, "Unknown
error")` is the one exit call, so the error div is shown with message
`"Unknown error"`, the loading div is hidden and the submit button is
re-enabled. -/
theorem handleGeneration_transportFailure_behavior
    (background text_model blur : Option String) (s : UIState) :
    ((handleGeneration background text_model blur (fun _ => FetchOutcome.transportFailure)
        (s, [])).1.errorVisible = true) ∧
    ((handleGeneration background text_model blur (fun _ => FetchOutcome.transportFailure)
        (s, [])).1.errorDetails = "Unknown error") ∧
    ((handleGeneration background text_model blur (fun _ => FetchOutcome.transportFailure)
        (s, [])).1.submitDisabled = false) ∧
    ((handleGeneration background text_model blur (fun _ => FetchOutcome.transportFailure)
        (s, [])).1.loadingVisible = false) ∧
    ((handleGeneration background text_model blur (fun _ => FetchOutcome.transportFailure)
        (s, [])).2 = [UIEvent.enterLoading, UIEvent.exitLoading true (some "Unknown error")]) := by
  simp [handleGeneration, runStartLoading, runStopLoading, runGenerateError, setStopLoading]

/-- C9: a submission with a success response carrying credits
`{url: "http://u", first_name: "A", last_name: "B"}` and generation
parameters `{text_model: "flux"}` calls `setStopLoading(false)` (result div
shown, error div hidden) and assigns a caption containing both the
substring `"A B"` and the substring `"flux"`. -/
theorem handleGeneration_success_render (s : UIState) :
    ((handleGeneration (some "beach") (some "flux") (some "1")
        (fun _ => FetchOutcome.httpOk (BlobResult.read [1, 2, 3]) ⟨"http://u", "A", "B"⟩ ⟨"flux"⟩)
        (s, [])).2 = [UIEvent.enterLoading, UIEvent.exitLoading false none]) ∧
    ((handleGeneration (some "beach") (some "flux") (some "1")
        (fun _ => FetchOutcome.httpOk (BlobResult.read [1, 2, 3]) ⟨"http://u", "A", "B"⟩ ⟨"flux"⟩)
        (s, [])).1.resultVisible = true) ∧
    ((handleGeneration (some "beach") (some "flux") (some "1")
        (fun _ => FetchOutcome.httpOk (BlobResult.read [1, 2, 3]) ⟨"http://u", "A", "B"⟩ ⟨"flux"⟩)
        (s, [])).1.errorVisible = false) ∧
    (∃ p q, (handleGeneration (some "beach") (some "flux") (some "1")
        (fun _ => FetchOutcome.httpOk (BlobResult.read [1, 2, 3]) ⟨"http://u", "A", "B"⟩ ⟨"flux"⟩)
        (s, [])).1.resultCaption = p ++ "A B" ++ q) ∧
    (∃ p q, (handleGeneration (some "beach") (some "flux") (some "1")
        (fun _ => FetchOutcome.httpOk (BlobResult.read [1, 2, 3]) ⟨"http://u", "A", "B"⟩ ⟨"flux"⟩)
        (s, [])).1.resultCaption = p ++ "flux" ++ q) := by
  refine ⟨?_, ?_, ?_, ?_, ?_⟩
  · simp [handleGeneration, runStartLoading, runStopLoading]
  · simp [handleGeneration, runStartLoading, runStopLoading, setStopLoading]
  · simp [handleGeneration, runStartLoading, runStopLoading, setStopLoading]
  · refine ⟨"Background picture by <a href=\x27http://u\x27>",
      " on Unsplash</a>.<br />\n\t\t\t\t\tGenerated with flux on Hugging Face.\n\t\t\t\t\t",
      ?_⟩
    show (handleGeneration (some "beach") (some "flux") (some "1")
        (fun _ => FetchOutcome.httpOk (BlobResult.read [1, 2, 3]) ⟨"http://u", "A", "B"⟩ ⟨"flux"⟩)
        (s, [])).1.resultCaption = _
    simp only [handleGeneration, runStartLoading, runStopLoading]
    decide
  · refine ⟨"Background picture by <a href=\x27http://u\x27>A B on Unsplash</a>.<br />\n\t\t\t\t\tGenerated with ",
      " on Hugging Face.\n\t\t\t\t\t", ?_⟩
    simp only [handleGeneration, runStartLoading, runStopLoading]
    decide

/-- Reassociation helper for concrete string prefixes. -/
theorem append_assoc_concrete (a b c v : String) (h : a ++ b = c) : a ++ (b ++ v) = c ++ v := by
  rw [← String.append_assoc, h]

/-- An absent parameter is falsy. -/
theorem isTruthy_none : isTruthy none = false := rfl

/-- With only `text_model` supplied, the URL is the base path plus
`?text_model=<urlencoded value>` when the value is truthy, and the bare
base path otherwise. -/
theorem buildRequestURL_only_text_model (text_model : Option String) :
    buildRequestURL none text_model none =
      if isTruthy text_model then "/generate/?text_model=" ++ urlencode (text_model.getD "")
      else "/generate/" := by
  cases ht : isTruthy text_model
  · simp [buildRequestURL, buildQueryParams, isTruthy_none, ht]
  · simp only [buildRequestURL, buildQueryParams, serializeQuery, isTruthy_none, ht, if_true,
      if_false, Bool.false_eq_true, List.append_nil, List.nil_append, List.map,
      String.intercalate, String.intercalate.go, List.length_cons, List.length_nil,
      Nat.zero_lt_succ, if_pos]
    exact append_assoc_concrete _ _ _ _ (by decide)

/-- C4: for every combination of the three parameters, the query-parameter
set holds a key exactly when the corresponding input is truthy, carrying
that input's value under the canonical name (`background`, `text_model`,
`blur`); the URL serializes each pair urlencoded, and with only
`text_model = "gpt"` the built URL is exactly `"/generate/?text_model=gpt"`. -/
theorem buildRequestURL_param_presence (background text_model blur : Option String) :
    (((buildQueryParams background text_model blur).map Prod.fst).contains "background"
        = isTruthy background) ∧
    (((buildQueryParams background text_model blur).map Prod.fst).contains "text_model"
        = isTruthy text_model) ∧
    (((buildQueryParams background text_model blur).map Prod.fst).contains "blur"
        = isTruthy blur) ∧
    ((buildQueryParams background text_model blur).lookup "background"
        = if isTruthy background then some (background.getD "") else none) ∧
    ((buildQueryParams background text_model blur).lookup "text_model"
        = if isTruthy text_model then some (text_model.getD "") else none) ∧
    ((buildQueryParams background text_model blur).lookup "blur"
        = if isTruthy blur then some (blur.getD "") else none) ∧
    (buildRequestURL none text_model none =
      if isTruthy text_model then "/generate/?text_model=" ++ urlencode (text_model.getD "")
      else "/generate/") ∧
    buildRequestURL none (some "gpt") none = "/generate/?text_model=gpt" := by
  refine ⟨?_, ?_, ?_, ?_, ?_, ?_, buildRequestURL_only_text_model text_model, by decide⟩ <;>
    cases hb : isTruthy background <;> cases ht : isTruthy text_model <;>
    cases hbl : isTruthy blur <;>
    simp [buildQueryParams, hb, ht, hbl, List.lookup]
